import Mathlib

/-!
Verification development for the VM lifecycle coordinator repository.

The repository manages KVM/QEMU virtual machines through libvirt.  It
contains a typed GUI application (`src/vm_service.py`, `src/libvirt_adapter.py`,
`src/xml_generator.py`, `src/control.py`) and two near-duplicate interactive
console scripts (`Modest_Python_Script.py`,
`LAB2b_Python_Script_Kherroubi_Bousdjira_SQ1.py`).

This file gives a shallow embedding of the lifecycle coordinator, the libvirt
adapter, the descriptor builder and the disk-artifact handling, together with
an explicit model of the external hypervisor control interface and of the
filesystem, and proves or refutes the specified properties.

Machine integers of the Python source are modelled as `Int`/`Nat`; fallible
calls are modelled with `Except`/`Option`; every side effect (hypervisor call,
disk-image tool invocation, file creation/removal) is made explicit in the
returned state and call traces.
-/

/-- VM state enumeration, from `src/models.py` / `src/control.py`
(`VMState`: RUNNING, SHUTOFF, PAUSED, UNKNOWN). -/
inductive VMState
  | running
  | shutoff
  | paused
  | unknown

deriving instance DecidableEq, Repr for VMState

/-- A domain known to the hypervisor.  `stateCode` is the raw libvirt state
code (1 = running, 3 = paused, 5 = shut off, as used by `_map_state` in
`src/libvirt_adapter.py` and by the `VIR_DOMAIN_*` comparisons in the console
scripts).  `xml` is the persisted descriptor (returned by `XMLDesc`).
`defined` records whether a persistent definition exists (`undefine` clears
it). -/
structure Domain where
  name : String
  stateCode : Nat
  uuid : String
  memKiB : Nat
  vcpus : Nat
  xml : String
  defined : Bool

deriving instance DecidableEq, Repr for Domain

/-- The hypervisor's set of domains (the state behind one libvirt session). -/
structure Hypervisor where
  domains : List Domain

deriving instance DecidableEq, Repr for Hypervisor

/-- Immutable VM snapshot, from `src/models.py` (`VMInfo`). -/
structure VMInfo where
  name : String
  state : VMState
  uuid : String
  memory : Nat
  vcpus : Nat

deriving instance DecidableEq, Repr for VMInfo

/-- Calls issued to the hypervisor control interface, recorded as a trace so
that "no call is issued" is expressible. -/
inductive HvCall
  | listAll
  | lookup (name : String)
  | domCreate (name : String)
  | domShutdown (name : String)
  | domDestroy (name : String)
  | domUndefine (name : String)
  | defineXML (xml : String)

deriving instance DecidableEq, Repr for HvCall

/-- Modelled from the spec (§6): `session.lookupByName(name)` returns the
domain of that name, or fails. -/
def lookupByName (hv : Hypervisor) (name : String) : Option Domain :=
  hv.domains.find? (fun d => d.name == name)

/-- Replace the state code of the domain named `name`. -/
def setDomState (hv : Hypervisor) (name : String) (code : Nat) : Hypervisor :=
  ⟨hv.domains.map (fun d => if d.name == name then { d with stateCode := code } else d)⟩

/-- Modelled from the spec (§4.1 state machine, §6): `domain.create()` starts
a defined, shut-off domain (ShutOff -> Running); on an already active domain
the call raises (`VIR_ERR_OPERATION_INVALID`), modelled as `.error`. -/
def domCreateOp (hv : Hypervisor) (d : Domain) : Except Unit Hypervisor :=
  match lookupByName hv d.name with
  | none => .error ()
  | some cur => if cur.stateCode = 5 then .ok (setDomState hv d.name 1) else .error ()

/-- Active means Running or Paused (spec §4.1: "Active (Running or Paused)");
models `domain.isActive()` for the states this development reasons about. -/
def isActiveCode (code : Nat) : Bool :=
  code == 1 || code == 3

/-- Modelled from the spec (§6): `domain.destroy()` immediately terminates an
active (Running or Paused) domain; on an inactive domain it raises. -/
def domDestroyOp (hv : Hypervisor) (d : Domain) : Except Unit Hypervisor :=
  match lookupByName hv d.name with
  | none => .error ()
  | some cur =>
    if isActiveCode cur.stateCode then .ok (setDomState hv d.name 5) else .error ()

/-- Modelled from the spec (§6, §9): `domain.shutdown()` requests cooperative
shutdown of a running domain and returns upon acceptance (the state change is
asynchronous, so the observed state is unchanged here); on a domain that is
not running it raises. -/
def domShutdownOp (hv : Hypervisor) (d : Domain) : Except Unit Hypervisor :=
  match lookupByName hv d.name with
  | none => .error ()
  | some cur => if cur.stateCode = 1 then .ok hv else .error ()

/-- Modelled from the spec (§6): `domain.undefine()` removes the persistent
definition.  A shut-off domain disappears from the domain set; an active
domain keeps running but loses its definition (becomes transient).  Without a
persistent definition the call raises. -/
def domUndefineOp (hv : Hypervisor) (d : Domain) : Except Unit Hypervisor :=
  match lookupByName hv d.name with
  | none => .error ()
  | some cur =>
    if !cur.defined then .error ()
    else if cur.stateCode = 5 then
      .ok ⟨hv.domains.filter (fun x => x.name != d.name)⟩
    else
      .ok ⟨hv.domains.map (fun x => if x.name == d.name then { x with defined := false } else x)⟩

/-- Strip a literal character pattern from the front of a character list,
returning the remainder on success. -/
def stripPat : List Char → List Char → Option (List Char)
  | [], rest => some rest
  | _ :: _, [] => none
  | p :: ps, c :: cs => if p = c then stripPat ps cs else none

/-- The single-quote character, written by code point to keep the source
plain. -/
def quoteChar : Char := Char.ofNat 39

/-- Take characters up to the next single quote; fails if no quote follows
(the regex capture `[^']*` followed by a literal quote). -/
def takeToQuote : List Char → Option (List Char × List Char)
  | [] => none
  | c :: cs =>
    if c = quoteChar then some ([], cs)
    else
      match takeToQuote cs with
      | some (a, b) => some (c :: a, b)
      | none => none

/-- Does the character list end with `.qcow2`? -/
def endsWithQcow (l : List Char) : Bool :=
  (stripPat (".qcow2".toList.reverse) l.reverse).isSome

/-- The literal part of the disk-path pattern used by the console scripts. -/
def diskPat : List Char := "<source file='".toList

/-- One attempted match of the Python regex
`<source file='([^']*\.qcow2)'/>` at the current position: the literal head,
a quote-free capture ending in `.qcow2`, then `'/>`. -/
def matchDiskAt (l : List Char) : Option (String × List Char) :=
  match stripPat diskPat l with
  | none => none
  | some r1 =>
    match takeToQuote r1 with
    | none => none
    | some (cap, r2) =>
      if endsWithQcow cap then
        match stripPat ['/', '>'] r2 with
        | none => none
        | some r3 => some (String.mk cap, r3)
      else none

/-- Scan for all non-overlapping matches, advancing one character on failure
(as `re.findall` does).  Fuel bounds the scan by the input length. -/
def scanDisks : Nat → List Char → List String
  | 0, _ => []
  | _ + 1, [] => []
  | fuel + 1, c :: cs =>
    match matchDiskAt (c :: cs) with
    | some (path, rest) => path :: scanDisks fuel rest
    | none => scanDisks fuel cs

/-- Embedding of the disk-path extraction in `VMManager.delete_vm`
(`Modest_Python_Script.py`, `LAB2b...py`):
`re.findall(r"<source file='([^']*\.qcow2)'/>", xml_desc)`. -/
def extractDiskPaths (xml : String) : List String :=
  scanDisks xml.toList.length xml.toList

/-- The literal `<name>` opening tag. -/
def namePat : List Char := "<name>".toList

/-- Characters up to the next `<`. -/
def takeToLt : List Char → List Char
  | [] => []
  | c :: cs => if c = '<' then [] else c :: takeToLt cs

/-- Find the first `<name>` tag and return its text content. -/
def scanName : Nat → List Char → Option String
  | 0, _ => none
  | _ + 1, [] => none
  | fuel + 1, c :: cs =>
    match stripPat namePat (c :: cs) with
    | some r => some (String.mk (takeToLt r))
    | none => scanName fuel cs

/-- The domain name carried inside a descriptor (`<name>...</name>`). -/
def extractTagName (xml : String) : Option String :=
  scanName xml.toList.length xml.toList

/-- Modelled from the spec (§6): `session.defineXML(descriptor)` persists the
domain definition under the name carried in the descriptor, replacing any
existing definition of that name; a freshly defined domain is shut off.
Fields not carried by this model's descriptor reading (uuid, memory, vcpus)
are irrelevant to the verified claims and are left at defaults for a new
domain. -/
def defineXMLOp (hv : Hypervisor) (xml : String) : Except Unit Hypervisor :=
  match extractTagName xml with
  | none => .error ()
  | some n =>
    match lookupByName hv n with
    | some _ =>
      .ok ⟨hv.domains.map (fun d => if d.name == n then { d with xml := xml, defined := true } else d)⟩
    | none =>
      .ok ⟨hv.domains ++ [{ name := n, stateCode := 5, uuid := "", memKiB := 0, vcpus := 0,
                            xml := xml, defined := true }]⟩

/-- Host filesystem model: files as path/content pairs (the content token
stands for the file's content and size), plus the set of paths on which
`os.remove` raises `OSError`. -/
structure FS where
  files : List (String × Int)
  undeletable : List String

deriving instance DecidableEq, Repr for FS

/-- `os.path.exists` / `Path.exists`. -/
def pathExists (fs : FS) (p : String) : Bool :=
  fs.files.any (fun f => f.1 == p)

/-- Create or overwrite a file at `p` with content token `content`. -/
def writeFile (fs : FS) (p : String) (content : Int) : FS :=
  { files := fs.files.filter (fun f => f.1 != p) ++ [(p, content)],
    undeletable := fs.undeletable }

/-- `os.remove` on a removable path. -/
def removeFile (fs : FS) (p : String) : FS :=
  { files := fs.files.filter (fun f => f.1 != p), undeletable := fs.undeletable }

/-- State mapping of `LibvirtAdapter._map_state` / `LibvirtManager._get_vm_state`:
`{1: RUNNING, 5: SHUTOFF, 3: PAUSED}.get(code, UNKNOWN)`. -/
def mapState (code : Nat) : VMState :=
  if code = 1 then .running
  else if code = 5 then .shutoff
  else if code = 3 then .paused
  else .unknown

/-- `LibvirtAdapter._extract_vm_info`: snapshot of one domain
(`memory = info[2] // 1024`, KiB to MB). -/
def extractVMInfo (d : Domain) : VMInfo :=
  { name := d.name, state := mapState d.stateCode, uuid := d.uuid,
    memory := d.memKiB / 1024, vcpus := d.vcpus }

/-- `LibvirtAdapter.list_all_domains`: without a connection, return `[]` and
issue no hypervisor call; otherwise enumerate and convert each domain. -/
def listAllDomainsAd (conn : Bool) (hv : Hypervisor) : List VMInfo × List HvCall :=
  if conn then (hv.domains.map extractVMInfo, [.listAll]) else ([], [])

/-- `LibvirtAdapter._execute_domain_action`: without a connection return
`False` at once (no hypervisor call); otherwise look up by name, issue the
action, and convert any raised `libvirtError` to `False`. -/
def executeDomainAction (conn : Bool) (hv : Hypervisor) (name : String)
    (act : Hypervisor → Domain → Except Unit Hypervisor) (call : HvCall) :
    Bool × Hypervisor × List HvCall :=
  if conn then
    match lookupByName hv name with
    | none => (false, hv, [.lookup name])
    | some d =>
      match act hv d with
      | .ok hv2 => (true, hv2, [.lookup name, call])
      | .error _ => (false, hv, [.lookup name, call])
  else (false, hv, [])

/-- `LibvirtAdapter.start_domain` (`lambda d: d.create()`). -/
def startDomainAd (conn : Bool) (hv : Hypervisor) (name : String) :
    Bool × Hypervisor × List HvCall :=
  executeDomainAction conn hv name domCreateOp (.domCreate name)

/-- `LibvirtAdapter.shutdown_domain` (`lambda d: d.shutdown()`). -/
def shutdownDomainAd (conn : Bool) (hv : Hypervisor) (name : String) :
    Bool × Hypervisor × List HvCall :=
  executeDomainAction conn hv name domShutdownOp (.domShutdown name)

/-- `LibvirtAdapter.destroy_domain` (`lambda d: d.destroy()`). -/
def destroyDomainAd (conn : Bool) (hv : Hypervisor) (name : String) :
    Bool × Hypervisor × List HvCall :=
  executeDomainAction conn hv name domDestroyOp (.domDestroy name)

/-- `LibvirtAdapter.undefine_domain` (`lambda d: d.undefine()`). -/
def undefineDomainAd (conn : Bool) (hv : Hypervisor) (name : String) :
    Bool × Hypervisor × List HvCall :=
  executeDomainAction conn hv name domUndefineOp (.domUndefine name)

/-- `LibvirtAdapter.define_domain`: without a connection return `False` with
no hypervisor call; otherwise submit the descriptor, converting a raised
`libvirtError` to `False`. -/
def defineDomainAd (conn : Bool) (hv : Hypervisor) (xml : String) :
    Bool × Hypervisor × List HvCall :=
  if conn then
    match defineXMLOp hv xml with
    | .ok hv2 => (true, hv2, [.defineXML xml])
    | .error _ => (false, hv, [.defineXML xml])
  else (false, hv, [])

/-- A live libvirt connection handle; `closeFails` says whether `close()`
raises a `libvirtError`. -/
structure Conn where
  closeFails : Bool

deriving instance DecidableEq, Repr for Conn

/-- `conn.close()`: may raise. -/
def closeConn (c : Conn) : Except Unit Unit :=
  if c.closeFails then .error () else .ok ()

/-- `LibvirtAdapter.disconnect`: if a connection is held, close it, logging
(and swallowing) any `libvirtError`; the `finally` block always clears the
handle.  On `None` it does nothing.  The function is total: no exception
escapes. -/
def disconnectAd (conn : Option Conn) : Option Conn :=
  match conn with
  | none => none
  | some c =>
    match closeConn c with
    | .ok _ => none
    | .error _ => none

/-- `LibvirtManager.disconnect` (`src/control.py`): `if self._conn:
self._conn.close(); self._conn = None` with no exception handler; an error
from `close()` propagates (`.error`). -/
def controlDisconnect (conn : Option Conn) : Except Unit (Option Conn) :=
  match conn with
  | none => .ok none
  | some c =>
    match closeConn c with
    | .ok _ => .ok none
    | .error e => .error e

/-- `VMXMLGenerator._generate_cdrom` (`src/xml_generator.py`). -/
def generateCdrom (isoPath : String) : String :=
  "\n    <disk type='file' device='cdrom'>\n      <driver name='qemu' type='raw'/>\n      <source file='" ++ isoPath ++ "'/>\n      <target dev='hdc' bus='ide'/>\n      <readonly/>\n    </disk>"

/-- `VMXMLGenerator.generate_vm_xml` (`src/xml_generator.py`): the pure
descriptor builder.  `memory`/`vcpus` are Python ints rendered by `str`. -/
def generateVMXml (name : String) (memory vcpus : Int) (diskPath : String)
    (isoPath : Option String) : String :=
  "<domain type='kvm'>\n  <name>" ++ name ++ "</name>\n  <memory unit='MiB'>" ++
    toString memory ++ "</memory>\n  <vcpu placement='static'>" ++ toString vcpus ++
    "</vcpu>\n  <os>\n    <type arch='x86_64' machine='pc'>hvm</type>\n    <boot dev='hd'/>\n    <boot dev='cdrom'/>\n  </os>\n  <devices>\n    <emulator>/usr/bin/qemu-system-x86_64</emulator>\n    <disk type='file' device='disk'>\n      <driver name='qemu' type='qcow2'/>\n      <source file='" ++
    diskPath ++ "'/>\n      <target dev='vda' bus='virtio'/>\n    </disk>" ++
    (match isoPath with | some iso => generateCdrom iso | none => "") ++
    "\n    <interface type='network'>\n      <source network='default'/>\n      <model type='virtio'/>\n    </interface>\n    <graphics type='vnc' port='-1' autoport='yes'/>\n  </devices>\n</domain>"

/-- Outcome of `VMService.create_vm`: result flag, final hypervisor and
filesystem states, the `qemu-img create` invocations (path, size in GB) and
the hypervisor calls issued. -/
structure CreateResult where
  ok : Bool
  hv : Hypervisor
  fs : FS
  qemuCalls : List (String × Int)
  hvCalls : List HvCall

deriving instance DecidableEq, Repr for CreateResult

/-- The tail of `VMService.create_vm` after the disk step: build the
descriptor and submit it through the adapter. -/
def vmServiceDefinePhase (conn : Bool) (hv : Hypervisor) (fs : FS)
    (qemuCalls : List (String × Int)) (name : String) (memory vcpus : Int)
    (diskPath : String) (isoPath : Option String) : CreateResult :=
  match defineDomainAd conn hv (generateVMXml name memory vcpus diskPath isoPath) with
  | (ok, hv2, calls) => { ok := ok, hv := hv2, fs := fs, qemuCalls := qemuCalls, hvCalls := calls }

/-- `VMService.create_vm` (`src/vm_service.py`): if no file exists at
`diskPath`, invoke `qemu-img create` (success governed by the oracle
`qemuOk`; on failure return `False` with no further action); then build the
descriptor and define it.  The source performs no validation of `memory`,
`vcpus` or `diskPath` and no duplicate-name check. -/
def vmServiceCreateVM (conn : Bool) (hv : Hypervisor) (fs : FS) (qemuOk : Bool)
    (name : String) (memory vcpus : Int) (diskPath : String) (diskSize : Int)
    (isoPath : Option String) : CreateResult :=
  if pathExists fs diskPath then
    vmServiceDefinePhase conn hv fs [] name memory vcpus diskPath isoPath
  else if qemuOk then
    vmServiceDefinePhase conn hv (writeFile fs diskPath diskSize)
      [(diskPath, diskSize)] name memory vcpus diskPath isoPath
  else
    { ok := false, hv := hv, fs := fs, qemuCalls := [(diskPath, diskSize)], hvCalls := [] }

/-- `VMService.delete_vm` (`src/vm_service.py`): delegates directly to
`LibvirtAdapter.undefine_domain`, with no state check. -/
def vmServiceDeleteVM (conn : Bool) (hv : Hypervisor) (name : String) :
    Bool × Hypervisor × List HvCall :=
  undefineDomainAd conn hv name

/-- `DISK_IMAGE_DIR` of `Modest_Python_Script.py`. -/
def diskImageDir : String := "/var/lib/libvirt/images"

/-- `QEMU_EMULATOR` of `Modest_Python_Script.py`. -/
def qemuEmulator : String := "/usr/libexec/qemu-kvm"

/-- `DEFAULT_BRIDGE` of `Modest_Python_Script.py`. -/
def defaultBridge : String := "kvmbr0"

/-- The disk path chosen by `VMManager.create_vm`
(`"%s/%s.qcow2" % (DISK_IMAGE_DIR, vm_name)`). -/
def modestDiskPath (name : String) : String :=
  diskImageDir ++ "/" ++ name ++ ".qcow2"

/-- The descriptor template of `VMManager.create_vm`
(`Modest_Python_Script.py`, lines 150-185), rendered with `%`-formatting. -/
def modestXml (name : String) (memory vcpus : Int) (diskPath isoPath : String) : String :=
  "<domain type='kvm'>\n  <name>" ++ name ++ "</name>\n  <memory unit='MiB'>" ++
    toString memory ++ "</memory>\n  <vcpu>" ++ toString vcpus ++
    "</vcpu>\n  <os><type arch='x86_64'>hvm</type><boot dev='cdrom'/><boot dev='hd'/></os>\n  <features><acpi/><apic/></features>\n  <clock offset='utc'/>\n  <devices>\n    <emulator>" ++
    qemuEmulator ++
    "</emulator>\n    <disk type='file' device='disk'>\n      <driver name='qemu' type='qcow2'/>\n      <source file='" ++
    diskPath ++
    "'/>\n      <target dev='vda' bus='virtio'/>\n    </disk>\n    <disk type='file' device='cdrom'>\n      <driver name='qemu' type='raw'/>\n      <source file='" ++
    isoPath ++
    "'/>\n      <target dev='hdc' bus='ide'/>\n      <readonly/>\n    </disk>\n    <interface type='bridge'>\n      <source bridge='" ++
    defaultBridge ++
    "'/>\n      <model type='virtio'/>\n    </interface>\n    <graphics type='vnc' port='-1' autoport='yes'/>\n    <console type='pty'/>\n  </devices>\n</domain>"

/-- Outcome of `VMManager.start_vm` (`Modest_Python_Script.py`): each
constructor corresponds to one printed code path. -/
inductive ModestStartResult
  | cancelled
  | started
  | alreadyRunning
  | pausedUseResume
  | otherState (code : Nat)
  | error

deriving instance DecidableEq, Repr for ModestStartResult

/-- `VMManager.start_vm` (`Modest_Python_Script.py`, lines 198-220): look the
domain up; from ShutOff issue `create()`; if Running report "already
running" (not an error); if Paused direct the operator to Resume; a failed
lookup or a raised `libvirtError` is reported as an error. -/
def modestStartVM (hv : Hypervisor) (name : String) : ModestStartResult × Hypervisor :=
  if name = "" then (.cancelled, hv)
  else
    match lookupByName hv name with
    | none => (.error, hv)
    | some d =>
      if d.stateCode = 5 then
        match domCreateOp hv d with
        | .ok hv2 => (.started, hv2)
        | .error _ => (.error, hv)
      else if d.stateCode = 1 then (.alreadyRunning, hv)
      else if d.stateCode = 3 then (.pausedUseResume, hv)
      else (.otherState d.stateCode, hv)

/-- Outcome of `VMManager.create_vm` (`Modest_Python_Script.py`). -/
inductive ModestCreateResult
  | cancelled
  | alreadyExists
  | isoNotFound
  | diskCreationFailed
  | defineError
  | created (started : Bool)
  | createdStartError

deriving instance DecidableEq, Repr for ModestCreateResult

/-- Full outcome of `VMManager.create_vm`: result, final hypervisor and
filesystem states, `qemu-img` invocations and hypervisor calls. -/
structure ModestCreateOut where
  result : ModestCreateResult
  hv : Hypervisor
  fs : FS
  qemuCalls : List (String × Int)
  hvCalls : List HvCall

deriving instance DecidableEq, Repr for ModestCreateOut

/-- The define-and-optionally-start tail of `VMManager.create_vm`. -/
def modestCreateDefine (hv : Hypervisor) (fs2 : FS) (name : String)
    (memory vcpus diskSize : Int) (isoPath : String) (startNow : Bool) : ModestCreateOut :=
  match defineXMLOp hv (modestXml name memory vcpus (modestDiskPath name) isoPath) with
  | .error _ =>
    ⟨.defineError, hv, fs2, [(modestDiskPath name, diskSize)],
      [.lookup name, .defineXML (modestXml name memory vcpus (modestDiskPath name) isoPath)]⟩
  | .ok hv2 =>
    if startNow then
      match lookupByName hv2 name with
      | none =>
        ⟨.createdStartError, hv2, fs2, [(modestDiskPath name, diskSize)],
          [.lookup name, .defineXML (modestXml name memory vcpus (modestDiskPath name) isoPath)]⟩
      | some d2 =>
        match domCreateOp hv2 d2 with
        | .ok hv3 =>
          ⟨.created true, hv3, fs2, [(modestDiskPath name, diskSize)],
            [.lookup name, .defineXML (modestXml name memory vcpus (modestDiskPath name) isoPath),
             .domCreate name]⟩
        | .error _ =>
          ⟨.createdStartError, hv2, fs2, [(modestDiskPath name, diskSize)],
            [.lookup name, .defineXML (modestXml name memory vcpus (modestDiskPath name) isoPath),
             .domCreate name]⟩
    else
      ⟨.created false, hv2, fs2, [(modestDiskPath name, diskSize)],
        [.lookup name, .defineXML (modestXml name memory vcpus (modestDiskPath name) isoPath)]⟩

/-- `VMManager.create_vm` (`Modest_Python_Script.py`, lines 119-196): refuse
an empty name; refuse a name already known to the hypervisor ("VM already
exists!"); require the installation ISO to exist; run `qemu-img create`
(success governed by `qemuOk`); then define the descriptor and optionally
start the new domain. -/
def modestCreateVM (hv : Hypervisor) (fs : FS) (qemuOk : Bool) (name : String)
    (memory vcpus diskSize : Int) (isoPath : String) (startNow : Bool) : ModestCreateOut :=
  if name = "" then ⟨.cancelled, hv, fs, [], []⟩
  else
    match lookupByName hv name with
    | some _ => ⟨.alreadyExists, hv, fs, [], [.lookup name]⟩
    | none =>
      if !pathExists fs isoPath then ⟨.isoNotFound, hv, fs, [], [.lookup name]⟩
      else if !qemuOk then
        ⟨.diskCreationFailed, hv, fs, [(modestDiskPath name, diskSize)], [.lookup name]⟩
      else
        modestCreateDefine hv (writeFile fs (modestDiskPath name) diskSize)
          name memory vcpus diskSize isoPath startNow

/-- Per-file outcome of the disk-deletion loop in `VMManager.delete_vm`:
deleted, reported "Not found", or `os.remove` raised an `OSError`. -/
inductive DiskOutcome
  | deleted
  | notFound
  | removeError

deriving instance DecidableEq, Repr for DiskOutcome

/-- How the deletion loop treats one path against a fixed filesystem. -/
def diskClassify (fs : FS) (p : String) : String × DiskOutcome :=
  (p, if pathExists fs p then
        (if fs.undeletable.contains p then .removeError else .deleted)
      else .notFound)

/-- The disk-deletion loop of `VMManager.delete_vm` (`Modest_Python_Script.py`
lines 340-350, `LAB2b...py` lines 694-709): for each path, if it exists try
`os.remove` (an `OSError` is caught and reported, and the loop continues);
otherwise report "Not found" and continue. -/
def deleteDisksLoop (fs : FS) : List String → List (String × DiskOutcome) × FS
  | [] => ([], fs)
  | p :: ps =>
    if pathExists fs p then
      if fs.undeletable.contains p then
        match deleteDisksLoop fs ps with
        | (rs, fs2) => ((p, .removeError) :: rs, fs2)
      else
        match deleteDisksLoop (removeFile fs p) ps with
        | (rs, fs2) => ((p, .deleted) :: rs, fs2)
    else
      match deleteDisksLoop fs ps with
      | (rs, fs2) => ((p, .notFound) :: rs, fs2)

/-- Closed form of the filesystem after the deletion loop: exactly the
existing, deletable paths among `ps` are gone. -/
def loopFS (fs : FS) (ps : List String) : FS :=
  { files := fs.files.filter (fun f => !(ps.contains f.1 && !fs.undeletable.contains f.1)),
    undeletable := fs.undeletable }

/-- Outcome of `VMManager.delete_vm` (`Modest_Python_Script.py`): each
constructor corresponds to one code path; `deleted` carries the per-file
disk outcomes (empty when no disk deletion was requested or none was
associated). -/
inductive ModestDeleteResult
  | cancelled
  | lookupError
  | stopError
  | cannotDeleteRunning
  | nameMismatch
  | undefineError
  | deleted (disks : List (String × DiskOutcome))

deriving instance DecidableEq, Repr for ModestDeleteResult

/-- The tail of `VMManager.delete_vm` once the domain is (or has been made)
inactive: extract the associated disk paths from the descriptor, require the
typed confirmation to match, undefine the domain, then—if requested and some
paths were found—run the per-file deletion loop. -/
def modestDeletePhase2 (hv : Hypervisor) (fs : FS) (name confirmName : String)
    (deleteDisks : Bool) (d : Domain) : ModestDeleteResult × Hypervisor × FS :=
  match extractDiskPaths d.xml with
  | paths =>
    if confirmName ≠ name then (.nameMismatch, hv, fs)
    else
      match domUndefineOp hv d with
      | .error _ => (.undefineError, hv, fs)
      | .ok hv2 =>
        if !paths.isEmpty && deleteDisks then
          match deleteDisksLoop fs paths with
          | (rs, fs2) => (.deleted rs, hv2, fs2)
        else (.deleted [], hv2, fs)

/-- `VMManager.delete_vm` (`Modest_Python_Script.py`, lines 294-353): refuse
an empty name; look the domain up; if it is active, either force-stop it
first (only when the operator answers yes) or refuse with "Cannot delete
running VM"; then extract disk paths, confirm, undefine, and optionally
delete the disk files one by one.  The interactive answers are the
parameters `stopFirst`, `confirmName` and `deleteDisks`. -/
def modestDeleteVM (hv : Hypervisor) (fs : FS) (name : String)
    (stopFirst : Bool) (confirmName : String) (deleteDisks : Bool) :
    ModestDeleteResult × Hypervisor × FS :=
  if name = "" then (.cancelled, hv, fs)
  else
    match lookupByName hv name with
    | none => (.lookupError, hv, fs)
    | some d =>
      if isActiveCode d.stateCode then
        if stopFirst then
          match domDestroyOp hv d with
          | .error _ => (.stopError, hv, fs)
          | .ok hv2 => modestDeletePhase2 hv2 fs name confirmName deleteDisks d
        else (.cannotDeleteRunning, hv, fs)
      else modestDeletePhase2 hv fs name confirmName deleteDisks d

/-- Fixture: empty hypervisor. -/
def hvEmpty : Hypervisor := ⟨[]⟩

/-- Fixture: empty filesystem. -/
def fsEmpty : FS := ⟨[], []⟩

/-- Fixture: one running, defined domain `vm1`. -/
def domRunning : Domain :=
  { name := "vm1", stateCode := 1, uuid := "u1", memKiB := 1048576, vcpus := 2,
    xml := "<domain><name>vm1</name></domain>", defined := true }

/-- Fixture hypervisor holding `domRunning`. -/
def hvRunning : Hypervisor := ⟨[domRunning]⟩

/-- Fixture: one paused, defined domain `vm1`. -/
def hvPaused : Hypervisor := ⟨[{ domRunning with stateCode := 3 }]⟩

/-- Fixture: a shut-off, defined domain `vm1` whose descriptor carries two
qcow2 disk paths. -/
def domTwoDisks : Domain :=
  { name := "vm1", stateCode := 5, uuid := "u1", memKiB := 0, vcpus := 0,
    xml := "<domain><name>vm1</name><devices><disk><source file='/a.qcow2'/></disk><disk><source file='/b.qcow2'/></disk></devices></domain>",
    defined := true }

/-- Fixture hypervisor holding `domTwoDisks`. -/
def hvTwoDisks : Hypervisor := ⟨[domTwoDisks]⟩

/-- Fixture filesystem containing only the second of the two disk paths. -/
def fsOneOfTwo : FS := ⟨[("/b.qcow2", 1)], []⟩

/-- Fixture: a shut-off, defined domain `vm1` with an old descriptor, for the
duplicate-name scenario. -/
def hvShutoffOld : Hypervisor :=
  ⟨[{ name := "vm1", stateCode := 5, uuid := "u1", memKiB := 0, vcpus := 0,
      xml := "<domain><name>vm1</name><old/></domain>", defined := true }]⟩

/-- Fixture filesystem already holding the disk artifact `/img/vm1.qcow2`. -/
def fsWithDisk : FS := ⟨[("/img/vm1.qcow2", 7)], []⟩

/-- A successful lookup returns a domain carrying the looked-up name. -/
theorem lookupByName_name {hv : Hypervisor} {n : String} {d : Domain}
    (h : lookupByName hv n = some d) : d.name = n := by
  unfold lookupByName at h
  have h2 := List.find?_some h
  simpa using h2

/-- Auxiliary list fact: filtering out entries at path `p` does not change
whether an entry at a different path `q` is present. -/
theorem any_filter_ne (l : List (String × Int)) (p q : String) (h : p ≠ q) :
    (l.filter (fun f => f.1 != p)).any (fun f => f.1 == q) = l.any (fun f => f.1 == q) := by
  induction l with
  | nil => rfl
  | cons f t ih =>
    by_cases hf2 : f.1 = p
    · have hfq : (f.1 == q) = false := by
        rw [hf2]
        simp [h]
      have hpred : ¬((f.1 != p) = true) := by simp [hf2]
      rw [List.filter_cons, if_neg hpred, List.any_cons, ih, hfq]
      simp
    · have hpred : (f.1 != p) = true := by simp [hf2]
      rw [List.filter_cons, if_pos hpred, List.any_cons, List.any_cons, ih]

/-- Removing one path does not affect existence of a different path. -/
theorem pathExists_removeFile (fs : FS) (p q : String) (h : p ≠ q) :
    pathExists (removeFile fs p) q = pathExists fs q := by
  unfold pathExists removeFile
  exact any_filter_ne fs.files p q h

/-- Removing one path does not change how the loop classifies a different
path. -/
theorem diskClassify_removeFile (fs : FS) (p q : String) (h : p ≠ q) :
    diskClassify (removeFile fs p) q = diskClassify fs q := by
  unfold diskClassify
  rw [pathExists_removeFile fs p q h]
  rfl

/-- A path that does not exist contributes nothing to the final filesystem. -/
theorem loopFS_cons_not_exists (fs : FS) (p : String) (t : List String)
    (hex : pathExists fs p = false) :
    loopFS fs (p :: t) = loopFS fs t := by
  unfold loopFS
  congr 1
  apply List.filter_congr
  intro f hf
  have hne : f.1 ≠ p := by
    intro he
    have : pathExists fs p = true := by
      unfold pathExists
      exact List.any_eq_true.mpr ⟨f, hf, by simp [he]⟩
    simp [this] at hex
  simp [List.contains_cons, hne]

/-- An undeletable path contributes nothing to the final filesystem. -/
theorem loopFS_cons_undeletable (fs : FS) (p : String) (t : List String)
    (hu : fs.undeletable.contains p = true) :
    loopFS fs (p :: t) = loopFS fs t := by
  have hu2 : p ∈ fs.undeletable := by simpa using hu
  unfold loopFS
  congr 1
  apply List.filter_congr
  intro f _
  by_cases hf : f.1 = p
  · simp [List.contains_cons, hf, hu2]
  · simp [List.contains_cons, hf]

/-- A deletable existing path is removed first; the remaining loop over the
tail then yields the combined filter. -/
theorem loopFS_cons_deletable (fs : FS) (p : String) (t : List String)
    (hu : fs.undeletable.contains p = false) :
    loopFS (removeFile fs p) t = loopFS fs (p :: t) := by
  have hu2 : p ∉ fs.undeletable := by simpa using hu
  unfold loopFS removeFile
  congr 1
  rw [List.filter_filter]
  apply List.filter_congr
  intro f _
  by_cases hf : f.1 = p
  · simp [List.contains_cons, hf, hu2]
  · simp [List.contains_cons, hf]

/-- Specification of the disk-deletion loop: with distinct paths, every path
is classified against the initial filesystem (one path's failure never
blocks the attempts on the others), and the final filesystem has exactly the
existing deletable paths removed. -/
theorem deleteDisksLoop_spec (ps : List String) (fs : FS) (hnd : ps.Nodup) :
    deleteDisksLoop fs ps = (ps.map (diskClassify fs), loopFS fs ps) := by
  induction ps generalizing fs with
  | nil =>
    obtain ⟨files, und⟩ := fs
    simp [deleteDisksLoop, loopFS]
  | cons p t ih =>
    have hp : p ∉ t := (List.nodup_cons.mp hnd).1
    have ht : t.Nodup := (List.nodup_cons.mp hnd).2
    unfold deleteDisksLoop
    by_cases hex : pathExists fs p
    · by_cases hu : fs.undeletable.contains p
      · have hu2 : p ∈ fs.undeletable := by simpa using hu
        rw [if_pos hex, if_pos hu, ih fs ht]
        rw [loopFS_cons_undeletable fs p t hu]
        simp [diskClassify, hex, hu2]
      · have hu2 : p ∉ fs.undeletable := by simpa using hu
        rw [if_pos hex, if_neg hu, ih (removeFile fs p) ht]
        rw [loopFS_cons_deletable fs p t (by simpa using hu)]
        have hmap : t.map (diskClassify (removeFile fs p)) = t.map (diskClassify fs) := by
          apply List.map_congr_left
          intro q hq
          exact diskClassify_removeFile fs p q (fun he => hp (he ▸ hq))
        simp [hmap, diskClassify, hex, hu2]
    · rw [if_neg hex, ih fs ht]
      rw [loopFS_cons_not_exists fs p t (by simpa using hex)]
      simp [diskClassify, hex]

/-- Claim C1, counterexample: `VMService.delete_vm` (`src/vm_service.py`)
performs no state check.  Called on the running VM `vm1` it returns success
(`True`, not a `CannotDeleteRunning` failure) and the persistent definition
is removed (the domain is left transient), contradicting "the VM remains
defined and unchanged". -/
theorem c1_counterexample :
    (vmServiceDeleteVM true hvRunning "vm1").1 = true ∧
    (vmServiceDeleteVM true hvRunning "vm1").2.1 = ⟨[{ domRunning with defined := false }]⟩ ∧
    (vmServiceDeleteVM true hvRunning "vm1").2.1 ≠ hvRunning := by decide

/-- Claim C1, amended: in the interactive manager (`VMManager.delete_vm`,
`Modest_Python_Script.py`), delete on an Active (Running or Paused) VM where
the operator does not opt into the force-stop refuses with "Cannot delete
running VM" and leaves the hypervisor and the filesystem untouched. -/
theorem c1_amended_interactive_refuses (hv : Hypervisor) (fs : FS)
    (name confirmName : String) (deleteDisks : Bool) (d : Domain)
    (hne : name ≠ "") (hl : lookupByName hv name = some d)
    (ha : d.stateCode = 1 ∨ d.stateCode = 3) :
    modestDeleteVM hv fs name false confirmName deleteDisks =
      (.cannotDeleteRunning, hv, fs) := by
  simp only [modestDeleteVM, if_neg hne, hl]
  rcases ha with h | h <;> simp [isActiveCode, h]

/-- Concrete witness for the amended Claim C1. -/
theorem c1_witness :
    ("vm1" : String) ≠ "" ∧
    lookupByName hvRunning "vm1" = some domRunning ∧
    domRunning.stateCode = 1 ∧
    modestDeleteVM hvRunning fsEmpty "vm1" false "vm1" true =
      (.cannotDeleteRunning, hvRunning, fsEmpty) :=
  ⟨by decide, by decide, rfl,
   c1_amended_interactive_refuses hvRunning fsEmpty "vm1" "vm1" true domRunning
     (by decide) (by decide) (Or.inl rfl)⟩

set_option maxRecDepth 100000 in
/-- Claim C2, counterexample: `VMService.create_vm` performs no parameter
validation.  With `memory = 0` (and the disk absent) it still creates the
disk artifact (a side effect) and submits a definition, returning success
rather than an `InvalidParameters` failure. -/
theorem c2_counterexample :
    (vmServiceCreateVM true hvEmpty fsEmpty true "vm0" 0 2 "/img/vm0.qcow2" 10 none).ok = true ∧
    (vmServiceCreateVM true hvEmpty fsEmpty true "vm0" 0 2 "/img/vm0.qcow2" 10 none).fs ≠ fsEmpty ∧
    (vmServiceCreateVM true hvEmpty fsEmpty true "vm0" 0 2 "/img/vm0.qcow2" 10 none).qemuCalls =
      [("/img/vm0.qcow2", 10)] ∧
    (vmServiceCreateVM true hvEmpty fsEmpty true "vm0" 0 2 "/img/vm0.qcow2" 10 none).hvCalls =
      [.defineXML (generateVMXml "vm0" 0 2 "/img/vm0.qcow2" none)] := by decide

/-- Claim C2, amended: `VMService.create_vm` validates nothing: with
`memory_mb ≤ 0`, `vcpus ≤ 0` or an empty disk path it proceeds exactly as
with valid parameters — here, with the disk artifact already present, it
submits the descriptor built from the given (invalid) parameters and the
filesystem is untouched; no `InvalidParameters` short-circuit exists. -/
theorem c2_amended_no_validation (hv : Hypervisor) (fs : FS) (qemuOk : Bool)
    (name : String) (memory vcpus : Int) (diskPath : String) (diskSize : Int)
    (isoPath : Option String)
    (_hinv : memory ≤ 0 ∨ vcpus ≤ 0 ∨ diskPath = "")
    (hex : pathExists fs diskPath = true) :
    (vmServiceCreateVM true hv fs qemuOk name memory vcpus diskPath diskSize isoPath).fs = fs ∧
    (vmServiceCreateVM true hv fs qemuOk name memory vcpus diskPath diskSize isoPath).qemuCalls = [] ∧
    (vmServiceCreateVM true hv fs qemuOk name memory vcpus diskPath diskSize isoPath).hvCalls =
      [.defineXML (generateVMXml name memory vcpus diskPath isoPath)] := by
  unfold vmServiceCreateVM vmServiceDefinePhase defineDomainAd
  rw [hex]
  cases hdo : defineXMLOp hv (generateVMXml name memory vcpus diskPath isoPath) <;> simp [hdo]

/-- Concrete witness for the amended Claim C2 (`memory = 0`). -/
theorem c2_witness :
    ((0 : Int) ≤ 0 ∨ (2 : Int) ≤ 0 ∨ ("/img/vm1.qcow2" : String) = "") ∧
    pathExists fsWithDisk "/img/vm1.qcow2" = true ∧
    ((vmServiceCreateVM true hvEmpty fsWithDisk true "vm0" 0 2 "/img/vm1.qcow2" 10 none).fs = fsWithDisk ∧
     (vmServiceCreateVM true hvEmpty fsWithDisk true "vm0" 0 2 "/img/vm1.qcow2" 10 none).qemuCalls = [] ∧
     (vmServiceCreateVM true hvEmpty fsWithDisk true "vm0" 0 2 "/img/vm1.qcow2" 10 none).hvCalls =
       [.defineXML (generateVMXml "vm0" 0 2 "/img/vm1.qcow2" none)]) :=
  ⟨Or.inl (by decide), by decide,
   c2_amended_no_validation hvEmpty fsWithDisk true "vm0" 0 2 "/img/vm1.qcow2" 10 none
     (Or.inl (by decide)) (by decide)⟩

set_option maxRecDepth 100000 in
/-- Claim C3, counterexample: `VMService.create_vm` performs no
duplicate-name check.  With `vm1` already present in the hypervisor it still
submits a definition for `vm1` (which redefines the existing domain) and
returns success rather than an `AlreadyExists` failure — so the coordinator
does attempt to define a VM whose name already exists. -/
theorem c3_counterexample :
    lookupByName hvShutoffOld "vm1" ≠ none ∧
    (vmServiceCreateVM true hvShutoffOld fsWithDisk true "vm1" 1024 2 "/img/vm1.qcow2" 10 none).ok = true ∧
    (vmServiceCreateVM true hvShutoffOld fsWithDisk true "vm1" 1024 2 "/img/vm1.qcow2" 10 none).hvCalls =
      [.defineXML (generateVMXml "vm1" 1024 2 "/img/vm1.qcow2" none)] := by decide

/-- Claim C3, amended: the interactive manager (`VMManager.create_vm`,
`Modest_Python_Script.py`) does refuse a name already known to the
hypervisor: it reports "VM already exists", submits no definition, runs no
disk-image creation, and leaves the hypervisor and filesystem unchanged. -/
theorem c3_amended_interactive_refuses (hv : Hypervisor) (fs : FS) (qemuOk : Bool)
    (name : String) (memory vcpus diskSize : Int) (isoPath : String) (startNow : Bool)
    (d : Domain) (hne : name ≠ "") (hl : lookupByName hv name = some d) :
    modestCreateVM hv fs qemuOk name memory vcpus diskSize isoPath startNow =
      ⟨.alreadyExists, hv, fs, [], [.lookup name]⟩ := by
  simp only [modestCreateVM, if_neg hne, hl]

/-- Concrete witness for the amended Claim C3. -/
theorem c3_witness :
    ("vm1" : String) ≠ "" ∧
    (lookupByName hvShutoffOld "vm1").isSome = true ∧
    modestCreateVM hvShutoffOld fsEmpty true "vm1" 1024 2 10 "/iso/a.iso" false =
      ⟨.alreadyExists, hvShutoffOld, fsEmpty, [], [.lookup "vm1"]⟩ :=
  ⟨by decide, by decide,
   c3_amended_interactive_refuses hvShutoffOld fsEmpty true "vm1" 1024 2 10 "/iso/a.iso" false
     _ (by decide) rfl⟩

/-- Claim C4, counterexample: `LibvirtAdapter.start_domain`
(`src/libvirt_adapter.py`) has no distinguished `AlreadyRunning` result: on
the running VM `vm1` it returns `false` — its generic failure value, the very
same value it returns when the VM does not exist — rather than a non-error
`AlreadyRunning` result. -/
theorem c4_counterexample :
    mapState domRunning.stateCode = VMState.running ∧
    (startDomainAd true hvRunning "vm1").1 = false ∧
    (startDomainAd true hvRunning "nope").1 = false := by decide

/-- Claim C4, amended: the interactive manager (`VMManager.start_vm`,
`Modest_Python_Script.py`) does discriminate: start on a Running VM reports
"already running" (not an error) and changes nothing; on a Paused VM it
directs the operator to Resume; on a missing name it reports the lookup
error.  `LibvirtAdapter.start_domain` instead returns the generic failure
`false` in all these cases (also leaving the hypervisor unchanged). -/
theorem c4_amended_start_cases (hv : Hypervisor) (name : String) (hne : name ≠ "") :
    (∀ d : Domain, lookupByName hv name = some d →
      ((d.stateCode = 1 →
          modestStartVM hv name = (.alreadyRunning, hv) ∧
          startDomainAd true hv name = (false, hv, [.lookup name, .domCreate name])) ∧
       (d.stateCode = 3 →
          modestStartVM hv name = (.pausedUseResume, hv) ∧
          startDomainAd true hv name = (false, hv, [.lookup name, .domCreate name])))) ∧
    (lookupByName hv name = none →
      modestStartVM hv name = (.error, hv) ∧
      startDomainAd true hv name = (false, hv, [.lookup name])) := by
  constructor
  · intro d hl
    have hdn : d.name = name := lookupByName_name hl
    constructor
    · intro h1
      constructor
      · simp [modestStartVM, if_neg hne, hl, h1]
      · simp [startDomainAd, executeDomainAction, hl, domCreateOp, hdn, h1]
    · intro h3
      constructor
      · simp [modestStartVM, if_neg hne, hl, h3]
      · simp [startDomainAd, executeDomainAction, hl, domCreateOp, hdn, h3]
  · intro hl
    constructor
    · simp [modestStartVM, if_neg hne, hl]
    · simp [startDomainAd, executeDomainAction, hl]

/-- Concrete witness for the amended Claim C4. -/
theorem c4_witness :
    ("vm1" : String) ≠ "" ∧
    lookupByName hvRunning "vm1" = some domRunning ∧
    domRunning.stateCode = 1 ∧
    modestStartVM hvRunning "vm1" = (.alreadyRunning, hvRunning) ∧
    startDomainAd true hvRunning "vm1" = (false, hvRunning, [.lookup "vm1", .domCreate "vm1"]) := by
  refine ⟨by decide, by decide, rfl, ?_, ?_⟩
  · exact (((c4_amended_start_cases hvRunning "vm1" (by decide)).1 domRunning (by decide)).1 rfl).1
  · exact (((c4_amended_start_cases hvRunning "vm1" (by decide)).1 domRunning (by decide)).1 rfl).2

/-- Claim C5: when the disk artifact is absent and disk-image creation fails,
`VMService.create_vm` returns failure and performs no further action: the
only recorded effect is the failed `qemu-img` invocation — no descriptor is
submitted, no hypervisor call is issued, and both the hypervisor and the
filesystem are unchanged. -/
theorem c5_disk_failure_stops_create (conn : Bool) (hv : Hypervisor) (fs : FS)
    (name : String) (memory vcpus : Int) (diskPath : String) (diskSize : Int)
    (isoPath : Option String) (habs : pathExists fs diskPath = false) :
    vmServiceCreateVM conn hv fs false name memory vcpus diskPath diskSize isoPath =
      ⟨false, hv, fs, [(diskPath, diskSize)], []⟩ := by
  unfold vmServiceCreateVM
  rw [habs]
  simp

/-- Concrete witness for Claim C5. -/
theorem c5_witness :
    pathExists fsEmpty "/img/a.qcow2" = false ∧
    vmServiceCreateVM true hvEmpty fsEmpty false "a" 1024 2 "/img/a.qcow2" 10 none =
      ⟨false, hvEmpty, fsEmpty, [("/img/a.qcow2", 10)], []⟩ :=
  ⟨by decide,
   c5_disk_failure_stops_create true hvEmpty fsEmpty "a" 1024 2 "/img/a.qcow2" 10 none (by decide)⟩

/-- Claim C6: `VMManager.delete_vm` with disk removal requested, on a
deletable (shut-off, defined) VM with several distinct associated disk
paths: every path is attempted and classified against the initial filesystem
(an absent path yields NotFound for that path only, a present deletable path
is deleted, a failing removal is reported without stopping the loop), and
the VM definition is removed from the hypervisor. -/
theorem c6_delete_attempts_every_path (hv : Hypervisor) (fs : FS) (name : String)
    (d : Domain) (stopFirst : Bool) (ps : List String)
    (hne : name ≠ "") (hl : lookupByName hv name = some d)
    (hs : d.stateCode = 5) (hdef : d.defined = true)
    (hps : extractDiskPaths d.xml = ps) (hlen : 2 ≤ ps.length) (hnd : ps.Nodup) :
    modestDeleteVM hv fs name stopFirst name true =
      (.deleted (ps.map (diskClassify fs)),
       ⟨hv.domains.filter (fun x => x.name != name)⟩,
       loopFS fs ps) := by
  have hdn : d.name = name := lookupByName_name hl
  have hemp : ps.isEmpty = false := by
    cases ps with
    | nil => simp at hlen
    | cons a t => rfl
  have hact : isActiveCode d.stateCode = false := by simp [isActiveCode, hs]
  have hund : domUndefineOp hv d = .ok ⟨hv.domains.filter (fun x => x.name != name)⟩ := by
    unfold domUndefineOp
    rw [hdn, hl]
    simp [hdef, hs, hdn]
  simp only [modestDeleteVM, if_neg hne, hl, hact, Bool.false_eq_true, if_false,
    modestDeletePhase2, hps, hund]
  rw [if_neg (fun hcon : name ≠ name => hcon rfl)]
  rw [deleteDisksLoop_spec ps fs hnd]
  simp [hemp]

set_option maxRecDepth 100000 in
/-- Concrete witness for Claim C6, the spec scenario: two associated disk
paths, one absent from the filesystem (reported NotFound), the other present
(deleted); the VM definition is removed. -/
theorem c6_witness :
    lookupByName hvTwoDisks "vm1" = some domTwoDisks ∧
    extractDiskPaths domTwoDisks.xml = ["/a.qcow2", "/b.qcow2"] ∧
    pathExists fsOneOfTwo "/a.qcow2" = false ∧
    pathExists fsOneOfTwo "/b.qcow2" = true ∧
    modestDeleteVM hvTwoDisks fsOneOfTwo "vm1" false "vm1" true =
      (.deleted [("/a.qcow2", .notFound), ("/b.qcow2", .deleted)], ⟨[]⟩, ⟨[], []⟩) :=
  ⟨by decide, by decide, by decide, by decide,
   (c6_delete_attempts_every_path hvTwoDisks fsOneOfTwo "vm1" domTwoDisks false
      ["/a.qcow2", "/b.qcow2"] (by decide) (by decide) rfl rfl (by decide) (by decide)
      (by decide)).trans (by decide)⟩

/-- Claim C7: the descriptor builder `VMXMLGenerator.generate_vm_xml` is a
pure function (its embedding takes no state and records no effect) and is
deterministic: two calls with identical arguments produce byte-identical
descriptor strings. -/
theorem c7_builder_deterministic (n1 n2 : String) (m1 m2 v1 v2 : Int)
    (d1 d2 : String) (i1 i2 : Option String)
    (hn : n1 = n2) (hm : m1 = m2) (hvc : v1 = v2) (hd : d1 = d2) (hi : i1 = i2) :
    generateVMXml n1 m1 v1 d1 i1 = generateVMXml n2 m2 v2 d2 i2 := by
  subst hn hm hvc hd hi
  rfl

/-- Concrete witness for Claim C7. -/
theorem c7_witness :
    generateVMXml "vm1" 1024 2 "/img/vm1.qcow2" none =
      generateVMXml "vm1" 1024 2 "/img/vm1.qcow2" none :=
  c7_builder_deterministic "vm1" "vm1" 1024 1024 2 2 "/img/vm1.qcow2" "/img/vm1.qcow2"
    none none rfl rfl rfl rfl rfl

/-- Claim C8: the disk-ensure step of `VMService.create_vm` is idempotent on
existing files: whenever a file already exists at the disk path, for any
requested size, the disk-image tool is never invoked and the filesystem —
in particular the file's content and size — is left untouched. -/
theorem c8_ensure_idempotent (conn : Bool) (hv : Hypervisor) (fs : FS) (qemuOk : Bool)
    (name : String) (memory vcpus : Int) (diskPath : String) (diskSize : Int)
    (isoPath : Option String) (hex : pathExists fs diskPath = true) :
    (vmServiceCreateVM conn hv fs qemuOk name memory vcpus diskPath diskSize isoPath).fs = fs ∧
    (vmServiceCreateVM conn hv fs qemuOk name memory vcpus diskPath diskSize isoPath).qemuCalls = [] := by
  unfold vmServiceCreateVM vmServiceDefinePhase
  rw [hex]
  simp

/-- Concrete witness for Claim C8 (requested size 10, then 99, against the
same pre-existing file). -/
theorem c8_witness :
    pathExists fsWithDisk "/img/vm1.qcow2" = true ∧
    (vmServiceCreateVM true hvEmpty fsWithDisk true "vm1" 1024 2 "/img/vm1.qcow2" 10 none).fs = fsWithDisk ∧
    (vmServiceCreateVM true hvEmpty fsWithDisk true "vm1" 1024 2 "/img/vm1.qcow2" 10 none).qemuCalls = [] ∧
    (vmServiceCreateVM true hvEmpty fsWithDisk true "vm1" 1024 2 "/img/vm1.qcow2" 99 none).fs = fsWithDisk :=
  ⟨by decide,
   (c8_ensure_idempotent true hvEmpty fsWithDisk true "vm1" 1024 2 "/img/vm1.qcow2" 10 none (by decide)).1,
   (c8_ensure_idempotent true hvEmpty fsWithDisk true "vm1" 1024 2 "/img/vm1.qcow2" 10 none (by decide)).2,
   (c8_ensure_idempotent true hvEmpty fsWithDisk true "vm1" 1024 2 "/img/vm1.qcow2" 99 none (by decide)).1⟩

/-- Claim C9: `LibvirtAdapter.disconnect` is idempotent: on a never-opened
(or already-cleared) handle it changes nothing; applying it twice equals
applying it once (whatever the close behaviour); it is a total function, so
no exception escapes.  `LibvirtManager.disconnect` (`src/control.py`) is
likewise safe on a never-opened handle. -/
theorem c9_disconnect_idempotent :
    disconnectAd none = none ∧
    (∀ c : Option Conn, disconnectAd (disconnectAd c) = disconnectAd c) ∧
    controlDisconnect none = Except.ok none := by
  refine ⟨rfl, ?_, rfl⟩
  intro c
  match c with
  | none => rfl
  | some cc => cases hcf : cc.closeFails <;> simp [disconnectAd, closeConn, hcf]

/-- Claim C10: every adapter operation invoked with no open connection —
enumeration, start, shutdown, destroy, undefine and define — returns its
failure value (`[]` for enumeration, `false` otherwise), leaves the
hypervisor untouched and issues no hypervisor call at all (the operations
are total functions, so nothing is raised). -/
theorem c10_no_connection_no_calls (hv : Hypervisor) (name xml : String) :
    listAllDomainsAd false hv = ([], []) ∧
    startDomainAd false hv name = (false, hv, []) ∧
    shutdownDomainAd false hv name = (false, hv, []) ∧
    destroyDomainAd false hv name = (false, hv, []) ∧
    undefineDomainAd false hv name = (false, hv, []) ∧
    defineDomainAd false hv xml = (false, hv, []) :=
  ⟨rfl, rfl, rfl, rfl, rfl, rfl⟩
